import Mathlib

/-!
Shallow embedding of the task scheduling and worker-coordination subsystem of
the ragflow-mineru-integration backend, together with theorems settling the
specification claims about it.

Sources embedded:
- `backend/models/task.py`: the `Task`, `TaskQueue` and `WorkerNode` models,
  their status/priority enumerations, the lifecycle operations
  (`start_task`, `complete_task`, `fail_task`, `cancel_task`, `timeout_task`,
  `update_progress`), the dependency check (`check_dependencies`), and the
  selection queries (`get_pending_tasks`, `get_available_workers`) and
  derived statistics (`success_rate`, `average_processing_time`).
- `backend/models/base.py`: `BaseModel.get_by_id` (it catches `DoesNotExist`
  itself and returns `None` for a missing id), `BaseModel.save` (refreshes
  `updated_at`), and the `StatusMixin.status` field, which is a *separate*
  character field (default `'active'`) from the task's `task_status` field.
  Because `get_by_id` never raises, `Task.check_dependencies`' own
  `except Task.DoesNotExist` clause is unreachable, and a missing dependency
  id makes `dep_task.is_completed` raise `AttributeError`; that error path is
  modelled with `Option` (`none` = raised), and it propagates through the
  dependency filter of `get_pending_tasks`.
- `backend/services/task_service.py`: `TaskService.fail_task` and
  `TaskService.cancel_task` including their interaction with attributes and
  methods that do not exist on the `Task` model (`Task.fail`, `Task.cancel`),
  whose invocation raises `AttributeError`, is swallowed by the blanket
  `except Exception` handler, and surfaces as a failure result with no state
  change.

Timestamps (`datetime.now()` values and the deltas compared against them) are
modelled as integer seconds.  The database is modelled as a list of records,
with `get_by_id` returning the first record with a matching id.
-/

namespace TaskSched

/-- Status enumeration `TaskStatus` from `backend/models/task.py`. -/
inductive TaskStatus where
  | pending
  | queued
  | running
  | completed
  | failed
  | cancelled
  | retry
  | timeout
deriving DecidableEq, Repr

/-- The string stored for each status (`TaskStatus.<X>.value`). -/
def TaskStatus.value : TaskStatus → String
  | .pending => "pending"
  | .queued => "queued"
  | .running => "running"
  | .completed => "completed"
  | .failed => "failed"
  | .cancelled => "cancelled"
  | .retry => "retry"
  | .timeout => "timeout"

/-- Value held by the `StatusMixin.status` character field.  The field holds a
string (default `'active'`), but `TaskService.fail_task` assigns the raw
`TaskStatus.PENDING` enum object to it, so the field's runtime value is either
a string or an enum member.  A Python `==` between a string and an enum member
is `False`, which the constructor distinction captures. -/
inductive StatusVal where
  | str (s : String)
  | enum (e : TaskStatus)
deriving DecidableEq, Repr

/-- The `Task` model of `backend/models/task.py` (fields touched by the
embedded operations; `status` is the separate `StatusMixin` field inherited
alongside `task_status`). -/
structure Task where
  id : String
  name : String
  queue_name : String
  priority : String
  task_status : TaskStatus
  status : StatusVal
  progress : Nat
  created_at : Int
  updated_at : Int
  scheduled_at : Option Int
  started_at : Option Int
  completed_at : Option Int
  max_retries : Nat
  retry_count : Nat
  retry_delay : Nat
  timeout_seconds : Option Nat
  worker_id : Option String
  celery_task_id : Option String
  result : List (String × String)
  error_message : Option String
  error_traceback : Option String
  depends_on : List String
  memory_requirement : Nat
  gpu_requirement : Bool
  metadata : List (String × String)
deriving DecidableEq, Repr

/-- `Task.is_pending` property: status is pending or queued. -/
def Task.is_pending (t : Task) : Bool :=
  t.task_status == .pending || t.task_status == .queued

/-- `Task.is_running` property. -/
def Task.is_running (t : Task) : Bool :=
  t.task_status == .running

/-- `Task.is_completed` property. -/
def Task.is_completed (t : Task) : Bool :=
  t.task_status == .completed

/-- `Task.is_failed` property: status is failed or timeout. -/
def Task.is_failed (t : Task) : Bool :=
  t.task_status == .failed || t.task_status == .timeout

/-- `Task.can_retry` property: `self.is_failed and self.retry_count < self.max_retries`. -/
def Task.can_retry (t : Task) : Bool :=
  t.is_failed && decide (t.retry_count < t.max_retries)

/-- Association-list update used to model writing one key of a JSON dict
(`self.metadata['progress_message'] = message`). -/
def setKey (l : List (String × String)) (k v : String) : List (String × String) :=
  (l.filter fun p => p.1 ≠ k) ++ [(k, v)]

/-- `Task.start_task`: sets status running, `started_at = now`, `progress = 0`,
and binds the worker / celery ids when provided (`if worker_id: ...`).
`save()` refreshes `updated_at`. -/
def Task.start_task (t : Task) (worker : Option String) (celery : Option String)
    (now : Int) : Task :=
  { t with
    task_status := .running
    started_at := some now
    progress := 0
    worker_id := match worker with | some w => some w | none => t.worker_id
    celery_task_id := match celery with | some c => some c | none => t.celery_task_id
    updated_at := now }

/-- `Task.complete_task`: unconditionally sets status completed,
`completed_at = now`, `progress = 100`, clears the error fields, and stores
the result when it is truthy (`if result: self.result = result`). -/
def Task.complete_task (t : Task) (result : List (String × String)) (now : Int) : Task :=
  { t with
    task_status := .completed
    completed_at := some now
    progress := 100
    error_message := none
    error_traceback := none
    result := if result.isEmpty then t.result else result
    updated_at := now }

/-- `Task.fail_task`: records the error, then branches on
`can_retry and self.can_retry` — the *property* `can_retry`, which requires the
task to already be in a failed/timeout status.  The retry branch increments
`retry_count` and sets status retry; the other branch sets status failed and
`completed_at = now`.  No branch touches `scheduled_at`. -/
def Task.fail_task (t : Task) (error : String) (traceback : Option String)
    (can_retry : Bool) (now : Int) : Task :=
  let t1 := { t with error_message := some error, error_traceback := traceback }
  if can_retry && t.can_retry then
    { t1 with
      task_status := .retry
      retry_count := t1.retry_count + 1
      updated_at := now }
  else
    { t1 with
      task_status := .failed
      completed_at := some now
      updated_at := now }

/-- `Task.cancel_task`: unconditionally sets status cancelled and
`completed_at = now`; records the reason when provided. -/
def Task.cancel_task (t : Task) (reason : Option String) (now : Int) : Task :=
  { t with
    task_status := .cancelled
    completed_at := some now
    error_message := match reason with
      | some r => some ("Cancelled: " ++ r)
      | none => t.error_message
    updated_at := now }

/-- `Task.timeout_task`: sets status timeout, `completed_at = now`, and the
fixed timeout error message. -/
def Task.timeout_task (t : Task) (now : Int) : Task :=
  { t with
    task_status := .timeout
    completed_at := some now
    error_message := some "Task execution timed out"
    updated_at := now }

/-- `Task.update_progress`: unconditionally writes
`max(0, min(100, progress))` and, when a truthy message is given, stores it
under `metadata['progress_message']`.  There is no status guard. -/
def Task.update_progress (t : Task) (progress : Int) (message : Option String)
    (now : Int) : Task :=
  { t with
    progress := (max 0 (min 100 progress)).toNat
    metadata := match message with
      | some m => if m.isEmpty then t.metadata else setKey t.metadata "progress_message" m
      | none => t.metadata
    updated_at := now }

/-- `BaseModel.get_by_id` over the task store: the first task with the given
id, or `none` (`DoesNotExist` is caught and `None` returned). -/
def Task.get_by_id (store : List Task) (id : String) : Option Task :=
  store.find? fun t => t.id == id

/-- The dependency loop of `Task.check_dependencies`, examining ids in order:
an existing incomplete dependency returns `False`; an existing completed one
continues; a *missing* id makes `Task.get_by_id` return `None` (it catches
`DoesNotExist` itself), so `dep_task.is_completed` raises `AttributeError` —
the loop's `except Task.DoesNotExist: continue` clause is dead code.  A raised
error is `none`, a normal return of `b` is `some b`. -/
def checkDepsLoop (store : List Task) : List String → Option Bool
  | [] => some true
  | dep_id :: rest =>
    match Task.get_by_id store dep_id with
    | none => none
    | some dep => if dep.is_completed then checkDepsLoop store rest else some false

/-- `Task.check_dependencies`: returns `True` immediately for an empty (or
non-list) `depends_on`, otherwise runs the dependency loop; the
`AttributeError` on a missing dependency id propagates (`none`). -/
def Task.check_dependencies (store : List Task) (t : Task) : Option Bool :=
  checkDepsLoop store t.depends_on

/-- The `priority_order` dictionary of `Task.get_pending_tasks`:
urgent=1, high=2, normal=3, low=4, anything else 5 (`dict.get(p, 5)`). -/
def priority_order (p : String) : Nat :=
  if p = "urgent" then 1
  else if p = "high" then 2
  else if p = "normal" then 3
  else if p = "low" then 4
  else 5

/-- Comparison used for the database ordering `order_by(created_at.asc())`. -/
def createdLe (a b : Task) : Bool :=
  decide (a.created_at ≤ b.created_at)

/-- Comparison realising the Python stable sort with key
`(priority_order.get(t.priority, 5), t.created_at)`. -/
def taskKeyLe (a b : Task) : Bool :=
  decide (priority_order a.priority < priority_order b.priority) ||
  (decide (priority_order a.priority = priority_order b.priority) &&
    decide (a.created_at ≤ b.created_at))

/-- The `ready_tasks` loop at the end of `get_pending_tasks`: tasks whose
`check_dependencies()` returns `True` are appended in order; a raised
`AttributeError` propagates out of the entire call (`none`). -/
def readyTasksLoop (store : List Task) : List Task → Option (List Task)
  | [] => some []
  | t :: rest =>
    match Task.check_dependencies store t with
    | none => none
    | some true => (readyTasksLoop store rest).map fun l => t :: l
    | some false => readyTasksLoop store rest

/-- `Task.get_pending_tasks`: select tasks with status in
{pending, queued, retry}, optionally restricted to a queue, whose
`scheduled_at` is null or has passed; order by `created_at` and truncate to
`limit`; stable-sort by `(priority rank, created_at)`; finally keep only tasks
whose dependencies are satisfied — raising (`none`) if any selected task's
dependency check raises on a missing dependency id. -/
def Task.get_pending_tasks (store : List Task) (queue_name : Option String)
    (limit : Nat) (now : Int) : Option (List Task) :=
  let q1 := store.filter fun t =>
    t.task_status == .pending || t.task_status == .queued || t.task_status == .retry
  let q2 : List Task := match queue_name with
    | some qn => q1.filter fun t => t.queue_name == qn
    | none => q1
  let q3 := q2.filter fun (t : Task) =>
    match t.scheduled_at with
    | none => true
    | some s => decide (s ≤ now)
  let tasks := (q3.mergeSort createdLe).take limit
  let sorted := tasks.mergeSort taskKeyLe
  readyTasksLoop store sorted

/-- The `TaskQueue` model (fields used by the embedded statistics). -/
structure TaskQueue where
  name : String
  max_workers : Nat
  max_tasks_per_worker : Nat
  is_active : Bool
  is_paused : Bool
  total_tasks : Nat
  completed_tasks : Nat
  failed_tasks : Nat
deriving DecidableEq, Repr

/-- `TaskQueue.success_rate`: `0.0` when `total_tasks == 0`, otherwise
`completed_tasks / total_tasks * 100`. -/
def TaskQueue.success_rate (q : TaskQueue) : ℚ :=
  if q.total_tasks = 0 then 0
  else ((q.completed_tasks : ℚ) / (q.total_tasks : ℚ)) * 100

/-- The `WorkerNode` model (fields used by the embedded operations). -/
structure WorkerNode where
  worker_id : String
  hostname : String
  queue_names : List String
  max_concurrent_tasks : Nat
  gpu_available : Bool
  memory_available : Option Nat
  is_active : Bool
  is_busy : Bool
  last_heartbeat : Int
  tasks_processed : Nat
  tasks_failed : Nat
  total_processing_time : Nat
deriving DecidableEq, Repr

/-- `WorkerNode.is_online`: active and `last_heartbeat > now - 5 minutes`
(300 seconds). -/
def WorkerNode.is_online (w : WorkerNode) (now : Int) : Bool :=
  if !w.is_active then false
  else decide (now - 300 < w.last_heartbeat)

/-- `WorkerNode.current_tasks_count`: running tasks bound to this worker. -/
def WorkerNode.current_tasks_count (w : WorkerNode) (store : List Task) : Nat :=
  (store.filter fun t =>
    t.worker_id == some w.worker_id && t.task_status == .running).length

/-- `WorkerNode.can_accept_tasks`: online, not busy, and running fewer tasks
than `max_concurrent_tasks`. -/
def WorkerNode.can_accept_tasks (w : WorkerNode) (store : List Task) (now : Int) : Bool :=
  if !w.is_online now || w.is_busy then false
  else decide (w.current_tasks_count store < w.max_concurrent_tasks)

/-- `WorkerNode.success_rate`: `0.0` when `tasks_processed == 0`, otherwise
`(tasks_processed - tasks_failed) / tasks_processed * 100`. -/
def WorkerNode.success_rate (w : WorkerNode) : ℚ :=
  if w.tasks_processed = 0 then 0
  else (((w.tasks_processed : ℚ) - (w.tasks_failed : ℚ)) / (w.tasks_processed : ℚ)) * 100

/-- `WorkerNode.average_processing_time`: `0.0` when `tasks_processed == 0`,
otherwise `total_processing_time / tasks_processed`. -/
def WorkerNode.average_processing_time (w : WorkerNode) : ℚ :=
  if w.tasks_processed = 0 then 0
  else (w.total_processing_time : ℚ) / (w.tasks_processed : ℚ)

/-- `WorkerNode.get_available_workers`: active workers with a heartbeat inside
the 5-minute window and not busy, optionally filtered to those serving the
queue, further filtered by `can_accept_tasks`, and sorted by current running
task count ascending. -/
def WorkerNode.get_available_workers (workers : List WorkerNode) (store : List Task)
    (queue_name : Option String) (now : Int) : List WorkerNode :=
  let q := workers.filter fun w =>
    w.is_active && decide (now - 300 < w.last_heartbeat) && !w.is_busy
  let q2 : List WorkerNode := match queue_name with
    | some qn => q.filter fun w => w.queue_names.contains qn
    | none => q
  let available := q2.filter fun (w : WorkerNode) => w.can_accept_tasks store now
  available.mergeSort fun a b =>
    decide (a.current_tasks_count store ≤ b.current_tasks_count store)

/-- The `TaskService` configuration set in `TaskService.__init__`:
`self.retry_delay = 60` is the service's own fixed base delay. -/
structure TaskService where
  default_timeout : Nat
  max_retries : Nat
  retry_delay : Nat
deriving DecidableEq, Repr

/-- The service instantiated with its `__init__` defaults. -/
def TaskService.mk_default : TaskService :=
  { default_timeout := 3600, max_retries := 3, retry_delay := 60 }

/-- Replace the record with the given id in the store (a `save()`). -/
def updateById (store : List Task) (id : String) (t : Task) : List Task :=
  store.map fun x => if x.id == id then t else x

/-- `TaskService.fail_task(task_id, error, retry)`.  When the task exists and
`retry and task.retry_count < task.max_retries`, it increments `retry_count`,
assigns the raw `TaskStatus.PENDING` enum to the `StatusMixin.status` field
(the model's `task_status` field is untouched), records the retry error
message, and saves `scheduled_at = now + self.retry_delay * task.retry_count`
using the *service's* fixed delay; it returns `True`.  Otherwise it invokes
`task.fail(error)`, a method the `Task` model does not define, so an
`AttributeError` is raised, caught by the blanket handler, and `False` is
returned with the store unchanged. -/
def TaskService.fail_task (svc : TaskService) (store : List Task) (task_id : String)
    (error : String) (retry : Bool) (now : Int) : Bool × List Task :=
  match Task.get_by_id store task_id with
  | none => (false, store)
  | some task =>
    if retry && decide (task.retry_count < task.max_retries) then
      let rc := task.retry_count + 1
      let t1 := { task with
        retry_count := rc
        status := .enum .pending
        error_message := some ("Retry " ++ toString rc ++ "/" ++
          toString task.max_retries ++ ": " ++ error)
        updated_at := now }
      let t2 := { t1 with
        scheduled_at := some (now + (svc.retry_delay : Int) * (rc : Int))
        updated_at := now }
      (true, updateById store task_id t2)
    else
      (false, store)

/-- Result dictionary shape returned by `TaskService.cancel_task`. -/
structure SvcResult where
  success : Bool
  message : String
deriving DecidableEq, Repr

/-- `TaskService.cancel_task(task_id)` (no caller user id, so the access check
is skipped).  The guard `task.status not in [TaskStatus.PENDING,
TaskStatus.RUNNING]` reads the `StatusMixin.status` field and compares it to
enum members, so it passes only when that field holds the raw PENDING or
RUNNING enum; a plain string such as the default `'active'` never matches.  On
rejection the message interpolates `task.status.value`, which raises
`AttributeError` for a string-valued field and is caught by the blanket
handler.  On acceptance `task.cancel()` is invoked, a method the `Task` model
does not define, so the call raises and is likewise caught.  No path saves the
task. -/
def TaskService.cancel_task (store : List Task) (task_id : String)
    : SvcResult × List Task :=
  match Task.get_by_id store task_id with
  | none => ({ success := false, message := "Task not found" }, store)
  | some task =>
    if task.status == .enum .pending || task.status == .enum .running then
      ({ success := false, message := "Failed to cancel task" }, store)
    else
      match task.status with
      | .enum e =>
        ({ success := false,
           message := "Cannot cancel task in " ++ e.value ++ " status" }, store)
      | .str _ =>
        ({ success := false, message := "Failed to cancel task" }, store)

/-- One lifecycle operation on a task, with the arguments of the corresponding
`Task` method in `backend/models/task.py`. -/
inductive TaskOp where
  | start (worker : Option String) (celery : Option String)
  | complete (result : List (String × String))
  | fail (error : String) (traceback : Option String) (can_retry : Bool)
  | cancel (reason : Option String)
  | timeout
  | progress (percent : Int) (message : Option String)
deriving Repr

/-- Apply one lifecycle operation at a given time. -/
def applyOp (t : Task) (op : TaskOp) (now : Int) : Task :=
  match op with
  | .start w c => t.start_task w c now
  | .complete r => t.complete_task r now
  | .fail e tb cr => t.fail_task e tb cr now
  | .cancel r => t.cancel_task r now
  | .timeout => t.timeout_task now
  | .progress p m => t.update_progress p m now

/-- Apply a sequence of timestamped lifecycle operations. -/
def applyOps (t : Task) (ops : List (TaskOp × Int)) : Task :=
  ops.foldl (fun acc p => applyOp acc p.1 p.2) t

/-- A concrete running task: `retry_count 0 < max_retries 2`, task-level
`retry_delay = 10`, in queue `q`, bound to worker `w1`. -/
def exRunning : Task :=
  { id := "t1", name := "n", queue_name := "q", priority := "normal"
    task_status := .running, status := .str "active", progress := 30
    created_at := 0, updated_at := 0, scheduled_at := none, started_at := some 1
    completed_at := none, max_retries := 2, retry_count := 0, retry_delay := 10
    timeout_seconds := some 3600, worker_id := some "w1", celery_task_id := none
    result := [], error_message := none, error_traceback := none, depends_on := []
    memory_requirement := 512, gpu_requirement := false, metadata := [] }

/-- The same task already in status failed. -/
def exFailed : Task := { exRunning with task_status := .failed }

/-- The same task already completed. -/
def exCompleted : Task :=
  { exRunning with task_status := .completed, progress := 100, completed_at := some 3 }

/-- A running task whose retry budget is exhausted (`retry_count = max_retries = 2`). -/
def exMaxed : Task := { exRunning with id := "tm", retry_count := 2 }

/-- A pending task in queue `q` that requires a GPU. -/
def exGpuTask : Task :=
  { exRunning with id := "tg", task_status := .pending, gpu_requirement := true }

/-- A task depending on an id that resolves to no stored task. -/
def exDepMissing : Task := { exRunning with id := "td", depends_on := ["ghost"] }

/-- A task depending on id `t1`. -/
def exDepOnT1 : Task := { exRunning with id := "te", depends_on := ["t1"] }

/-- A concrete worker without GPU, serving queue `q`, recently seen. -/
def exWorker : WorkerNode :=
  { worker_id := "w1", hostname := "h", queue_names := ["q"]
    max_concurrent_tasks := 1, gpu_available := false, memory_available := some 0
    is_active := true, is_busy := false, last_heartbeat := 900
    tasks_processed := 0, tasks_failed := 0, total_processing_time := 0 }

/-- A concrete queue with no recorded tasks. -/
def exQueue : TaskQueue :=
  { name := "q", max_workers := 1, max_tasks_per_worker := 1
    is_active := true, is_paused := false
    total_tasks := 0, completed_tasks := 0, failed_tasks := 0 }

/-- C1 counterexample: a *running* task with `retry_count 0 < max_retries 2`
is failed with `allow_retry = true`, yet `Task.fail_task` sets status
`failed` (not `retry`) and does not increment `retry_count`, because the
retry branch is gated on the `can_retry` property, which additionally
requires the task to already be in a failed/timeout status. -/
theorem fail_task_running_goes_failed_cex :
    exRunning.retry_count < exRunning.max_retries ∧
    (exRunning.fail_task "boom" none true 5).task_status = TaskStatus.failed ∧
    (exRunning.fail_task "boom" none true 5).task_status ≠ TaskStatus.retry ∧
    (exRunning.fail_task "boom" none true 5).retry_count = exRunning.retry_count ∧
    (exRunning.fail_task "boom" none true 5).completed_at = some 5 := by
  decide

/-- C1 (amended): `Task.fail_task` with `allow_retry` takes the retry branch
exactly when `allow_retry` holds *and* the task is already failed/timeout with
`retry_count < max_retries` (the `can_retry` property); then it increments
`retry_count`, sets status `retry`, and leaves `completed_at` and
`scheduled_at` untouched.  In every other case — including a running task
with retries remaining — it sets status `failed` and `completed_at = now`
without touching `retry_count`. -/
theorem fail_task_branch_semantics (t : Task) (e : String) (tb : Option String)
    (r : Bool) (now : Int) :
    ((r && t.can_retry) = true →
        (t.fail_task e tb r now).task_status = TaskStatus.retry ∧
        (t.fail_task e tb r now).retry_count = t.retry_count + 1 ∧
        (t.fail_task e tb r now).completed_at = t.completed_at ∧
        (t.fail_task e tb r now).scheduled_at = t.scheduled_at) ∧
    ((r && t.can_retry) = false →
        (t.fail_task e tb r now).task_status = TaskStatus.failed ∧
        (t.fail_task e tb r now).completed_at = some now ∧
        (t.fail_task e tb r now).retry_count = t.retry_count ∧
        (t.fail_task e tb r now).scheduled_at = t.scheduled_at) := by
  constructor
  · intro h
    simp [Task.fail_task, h]
  · intro h
    simp [Task.fail_task, h]

/-- Witness for the amended C1 theorem: an already-failed task retries, a
running task goes terminal. -/
theorem fail_task_branch_semantics_witness :
    (Task.fail_task exFailed "e" none true 9).task_status = TaskStatus.retry ∧
    (Task.fail_task exRunning "e" none true 9).task_status = TaskStatus.failed :=
  ⟨((fail_task_branch_semantics exFailed "e" none true 9).1 (by decide)).1,
   ((fail_task_branch_semantics exRunning "e" none true 9).2 (by decide)).1⟩

/-- C6 counterexample: completing twice moves `completed_at` to the second
invocation's time, so the terminal state differs from a single invocation's
(there is no guard that makes a second `complete_task` a no-op). -/
theorem complete_task_twice_cex :
    ((exRunning.complete_task [] 10).complete_task [] 20).completed_at ≠
      (exRunning.complete_task [] 10).completed_at := by
  decide

/-- C6 (amended): `complete_task` is unconditional and absorptive — a second
invocation with the same result equals a single invocation performed at the
second time (only the `completed_at`/`updated_at` timestamps move); in
particular, with an unchanged clock re-invocation on the already-completed
task is exactly a no-op. -/
theorem complete_task_absorptive (t : Task) (r : List (String × String)) (n1 n2 : Int) :
    (t.complete_task r n1).complete_task r n2 = t.complete_task r n2 ∧
    (t.complete_task r n1).complete_task r n1 = t.complete_task r n1 := by
  by_cases hr : r.isEmpty <;> simp [Task.complete_task, hr]

/-- C7 counterexample: on a completed task, `update_progress` overwrites the
stored progress (100 → 50) — a write after terminal state, not a no-op. -/
theorem update_progress_after_terminal_cex :
    exCompleted.task_status = TaskStatus.completed ∧
    exCompleted.progress = 100 ∧
    (exCompleted.update_progress 50 none 5).progress = 50 ∧
    exCompleted.update_progress 50 none 5 ≠ exCompleted := by
  decide

/-- C7 (amended): `update_progress` has no terminal-state guard: even on a
task in a terminal status it writes the clamped progress value
(`max 0 (min 100 percent)`), leaving the status itself unchanged. -/
theorem update_progress_no_terminal_guard (t : Task) (p : Int) (msg : Option String)
    (now : Int)
    (_hterm : t.task_status = TaskStatus.completed ∨ t.task_status = TaskStatus.failed ∨
             t.task_status = TaskStatus.cancelled ∨ t.task_status = TaskStatus.timeout) :
    (t.update_progress p msg now).progress = (max 0 (min 100 p)).toNat ∧
    (t.update_progress p msg now).task_status = t.task_status := by
  simp [Task.update_progress]

/-- Witness for the amended C7 theorem at a concrete completed task. -/
theorem update_progress_no_terminal_guard_witness :
    (exCompleted.update_progress 50 none 5).progress = (max 0 (min 100 (50 : Int))).toNat ∧
    (exCompleted.update_progress 50 none 5).task_status = exCompleted.task_status :=
  update_progress_no_terminal_guard exCompleted 50 none 5 (Or.inl (by decide))

/-- C10: the derived statistics guard their divisions: a worker with
`tasks_processed = 0` reports `success_rate = 0` and
`average_processing_time = 0`, and a queue with `total_tasks = 0` reports
`success_rate = 0`; all three are total functions. -/
theorem zero_stats_guard (w : WorkerNode) (q : TaskQueue)
    (hw : w.tasks_processed = 0) (hq : q.total_tasks = 0) :
    w.success_rate = 0 ∧ w.average_processing_time = 0 ∧ q.success_rate = 0 := by
  simp [WorkerNode.success_rate, WorkerNode.average_processing_time,
    TaskQueue.success_rate, hw, hq]

/-- Witness for C10 at a concrete idle worker and empty queue. -/
theorem zero_stats_guard_witness :
    exWorker.success_rate = 0 ∧ exWorker.average_processing_time = 0 ∧
    exQueue.success_rate = 0 :=
  zero_stats_guard exWorker exQueue (by decide) (by decide)

/-- One lifecycle operation keeps `retry_count ≤ max_retries` (the only
operation that writes `retry_count` is the retry branch of `fail_task`,
which is guarded by `retry_count < max_retries`; no operation writes
`max_retries`). -/
theorem applyOp_retry_le (t : Task) (op : TaskOp) (now : Int)
    (h : t.retry_count ≤ t.max_retries) :
    (applyOp t op now).retry_count ≤ (applyOp t op now).max_retries := by
  cases op with
  | start w c => simpa [applyOp, Task.start_task] using h
  | complete r => simpa [applyOp, Task.complete_task] using h
  | cancel r => simpa [applyOp, Task.cancel_task] using h
  | timeout => simpa [applyOp, Task.timeout_task] using h
  | progress p m => simpa [applyOp, Task.update_progress] using h
  | fail e tb cr =>
    simp only [applyOp, Task.fail_task]
    by_cases hc : (cr && t.can_retry) = true
    · have hlt : t.retry_count < t.max_retries := by
        have h2 : t.can_retry = true := (Bool.and_eq_true _ _).mp hc |>.2
        simp only [Task.can_retry, Bool.and_eq_true, decide_eq_true_eq] at h2
        exact h2.2
      simp [hc]
      omega
    · simp only [Bool.not_eq_true] at hc
      simpa [hc] using h

/-- Any sequence of lifecycle operations keeps `retry_count ≤ max_retries`. -/
theorem applyOps_retry_le (t : Task) (ops : List (TaskOp × Int))
    (h : t.retry_count ≤ t.max_retries) :
    (applyOps t ops).retry_count ≤ (applyOps t ops).max_retries := by
  induction ops generalizing t with
  | nil => simpa [applyOps] using h
  | cons p ps ih =>
    simp only [applyOps, List.foldl_cons] at ih ⊢
    exact ih _ (applyOp_retry_le t p.1 p.2 h)

/-- C2 counterexample: on a task whose `retry_count` equals `max_retries`,
the service-level fail (with `retry=True`) does not produce terminal status
`failed` — its terminal branch invokes the undefined `Task.fail` method, the
exception is swallowed, `False` is returned and the task stays `running`. -/
theorem service_fail_at_limit_cex :
    exMaxed.retry_count = exMaxed.max_retries ∧
    TaskService.fail_task TaskService.mk_default [exMaxed] "tm" "boom" true 0 =
      (false, [exMaxed]) ∧
    (Task.get_by_id [exMaxed] "tm").map Task.task_status = some TaskStatus.running := by
  decide

/-- C2 (amended): along any sequence of lifecycle operations `retry_count`
never exceeds `max_retries`, and once `retry_count` has reached `max_retries`
a subsequent model-level `fail_task` yields terminal status `failed` and
never `retry`; the service-level `fail_task` at the limit returns `False`
and leaves the store unchanged (its terminal write is unreachable). -/
theorem retry_count_bounded_and_exhaustion (t : Task) (ops : List (TaskOp × Int))
    (h : t.retry_count ≤ t.max_retries) :
    (applyOps t ops).retry_count ≤ (applyOps t ops).max_retries ∧
    (∀ (e : String) (tb : Option String) (r : Bool) (now : Int),
        (applyOps t ops).max_retries ≤ (applyOps t ops).retry_count →
        ((applyOps t ops).fail_task e tb r now).task_status = TaskStatus.failed ∧
        ((applyOps t ops).fail_task e tb r now).task_status ≠ TaskStatus.retry) ∧
    (∀ (svc : TaskService) (store : List Task) (tid : String) (tk : Task)
        (e : String) (r : Bool) (now : Int),
        Task.get_by_id store tid = some tk → tk.max_retries ≤ tk.retry_count →
        TaskService.fail_task svc store tid e r now = (false, store)) := by
  refine ⟨applyOps_retry_le t ops h, ?_, ?_⟩
  · intro e tb r now hge
    have hcr : (applyOps t ops).can_retry = false := by
      have hnot : ¬ (applyOps t ops).retry_count < (applyOps t ops).max_retries :=
        Nat.not_lt.mpr hge
      simp [Task.can_retry, hnot]
    constructor
    · simp [Task.fail_task, hcr]
    · simp [Task.fail_task, hcr]
  · intro svc store tid tk e r now hget hge
    have hnot : ¬ tk.retry_count < tk.max_retries := Nat.not_lt.mpr hge
    simp [TaskService.fail_task, hget, hnot]

/-- Witness for the amended C2 theorem: a fresh task after one failed
operation stays within its budget, and an exhausted task fails terminally. -/
theorem retry_count_bounded_and_exhaustion_witness :
    (applyOps exRunning [(TaskOp.fail "e" none true, 4)]).retry_count ≤
      (applyOps exRunning [(TaskOp.fail "e" none true, 4)]).max_retries ∧
    (Task.fail_task (applyOps exMaxed []) "e" none true 3).task_status =
      TaskStatus.failed := by
  constructor
  · exact (retry_count_bounded_and_exhaustion exRunning
      [(TaskOp.fail "e" none true, 4)] (by decide)).1
  · exact ((retry_count_bounded_and_exhaustion exMaxed [] (by decide)).2.1
      "e" none true 3 (by decide)).1

/-- A successful `get_by_id` returns a task carrying the looked-up id. -/
theorem get_by_id_id_eq (store : List Task) (tid : String) (tk : Task)
    (h : Task.get_by_id store tid = some tk) : tk.id = tid := by
  have := List.find?_some h
  simpa using this

/-- Looking up an id after replacing that id's record returns the new record. -/
theorem get_by_id_updateById (store : List Task) (tid : String) (tk t2 : Task)
    (h : Task.get_by_id store tid = some tk) (hid : t2.id = tid) :
    Task.get_by_id (updateById store tid t2) tid = some t2 := by
  induction store with
  | nil => simp [Task.get_by_id] at h
  | cons x xs ih =>
    by_cases hx : x.id = tid
    · simp [Task.get_by_id, updateById, List.find?_cons, hx, hid]
    · have h' : Task.get_by_id xs tid = some tk := by
        simpa [Task.get_by_id, List.find?_cons, hx] using h
      have hrec := ih h'
      simpa [Task.get_by_id, updateById, List.find?_cons, hx] using hrec

/-- C3 counterexample: on a task with `retry_delay = 10` and `retry_count = 0`,
failing through the service at time 0 schedules the retry at 60 — the
service's fixed base delay — not at `0 + 10 × 1` as the claim (backoff in the
task's own `retry_delay`) predicts. -/
theorem service_backoff_ignores_task_delay_cex :
    exRunning.retry_delay = 10 ∧ exRunning.retry_count = 0 ∧
    (Task.get_by_id
        (TaskService.fail_task TaskService.mk_default [exRunning] "t1" "e" true 0).2
        "t1").map Task.scheduled_at = some (some 60) ∧
    some (some (60 : Int)) ≠
      some (some ((0 : Int) +
        (exRunning.retry_delay : Int) * ((exRunning.retry_count : Int) + 1))) := by
  decide

/-- C3 (amended): when a retryable task fails through the service, the next
attempt is scheduled at `now + service.retry_delay × (retry_count + 1)` —
linear backoff in the *service's* fixed base delay (60 s by default), with
the already-incremented retry count; the task's own `retry_delay` field is
ignored, and the model-level `fail_task` never writes `scheduled_at` at all. -/
theorem service_fail_linear_backoff (svc : TaskService) (store : List Task)
    (tid e : String) (tk : Task) (now : Int)
    (hget : Task.get_by_id store tid = some tk)
    (hrc : tk.retry_count < tk.max_retries) :
    (TaskService.fail_task svc store tid e true now).1 = true ∧
    (Task.get_by_id (TaskService.fail_task svc store tid e true now).2 tid).map
        Task.scheduled_at =
      some (some (now + (svc.retry_delay : Int) * ((tk.retry_count : Int) + 1))) ∧
    (Task.get_by_id (TaskService.fail_task svc store tid e true now).2 tid).map
        Task.retry_count = some (tk.retry_count + 1) ∧
    (∀ (u : Task) (err : String) (tb : Option String) (cr : Bool) (n : Int),
        (u.fail_task err tb cr n).scheduled_at = u.scheduled_at) := by
  have hid := get_by_id_id_eq store tid tk hget
  simp only [TaskService.fail_task, hget, hrc, decide_True, Bool.true_and, if_pos]
  refine ⟨trivial, ?_, ?_, ?_⟩
  · rw [get_by_id_updateById store tid tk _ hget (by simpa using hid)]
    simp only [Option.map_some', Option.some.injEq]
    push_cast
    ring
  · rw [get_by_id_updateById store tid tk _ hget (by simpa using hid)]
    simp
  · intro u err tb cr n
    by_cases hc : (cr && u.can_retry) = true <;> simp [Task.fail_task, hc]

/-- Witness for the amended C3 theorem at the default service and a concrete
retryable task: the scheduled time evaluates to 67 = 7 + 60 × 1. -/
theorem service_fail_linear_backoff_witness :
    (TaskService.fail_task TaskService.mk_default [exRunning] "t1" "e" true 7).1 = true ∧
    (Task.get_by_id
        (TaskService.fail_task TaskService.mk_default [exRunning] "t1" "e" true 7).2
        "t1").map Task.scheduled_at =
      some (some (7 + (TaskService.mk_default.retry_delay : Int) *
        ((exRunning.retry_count : Int) + 1))) ∧
    (7 : Int) + (TaskService.mk_default.retry_delay : Int) *
        ((exRunning.retry_count : Int) + 1) = 67 := by
  have h := service_fail_linear_backoff TaskService.mk_default [exRunning] "t1" "e"
    exRunning 7 (by decide) (by decide)
  exact ⟨h.1, h.2.1, by decide⟩

/-- C4: evaluation of `check_dependencies` at the failing input.  On a
dependency id absent from the store the check *raises* (`none`) — because
`BaseModel.get_by_id` returns `None` instead of raising `DoesNotExist`, the
method's `except Task.DoesNotExist: continue` clause (whose comment states
the intended behaviour, "Dependency task not found, consider it completed")
is dead code and `None.is_completed` raises `AttributeError`.  The intended
paths behave as documented: empty `depends_on` is ready, a completed
dependency is ready, an incomplete dependency is not ready. -/
theorem check_dependencies_missing_dep_raises :
    Task.check_dependencies [exCompleted] exDepMissing = none ∧
    Task.check_dependencies [] exRunning = some true ∧
    Task.check_dependencies [exCompleted] exDepOnT1 = some true ∧
    Task.check_dependencies [exRunning] exDepOnT1 = some false := by
  decide

/-- Unfolding of `taskKeyLe` into the lexicographic order on
`(priority rank, created_at)`. -/
theorem taskKeyLe_eq_true_iff (a b : Task) :
    taskKeyLe a b = true ↔
      (priority_order a.priority < priority_order b.priority ∨
        (priority_order a.priority = priority_order b.priority ∧
          a.created_at ≤ b.created_at)) := by
  simp [taskKeyLe]

/-- The sort key comparison is transitive. -/
theorem taskKeyLe_trans (a b c : Task)
    (h1 : taskKeyLe a b = true) (h2 : taskKeyLe b c = true) :
    taskKeyLe a c = true := by
  rw [taskKeyLe_eq_true_iff] at h1 h2 ⊢
  rcases h1 with h1 | ⟨h1e, h1c⟩ <;> rcases h2 with h2 | ⟨h2e, h2c⟩
  · exact Or.inl (h1.trans h2)
  · exact Or.inl (h2e ▸ h1)
  · exact Or.inl (h1e ▸ h2)
  · exact Or.inr ⟨h1e.trans h2e, h1c.trans h2c⟩

/-- The sort key comparison is total. -/
theorem taskKeyLe_total (a b : Task) : (taskKeyLe a b || taskKeyLe b a) = true := by
  simp only [Bool.or_eq_true, taskKeyLe_eq_true_iff]
  omega

/-- A normally-returned `ready_tasks` list is a sublist (an in-order
selection) of the sorted candidate list. -/
theorem readyTasksLoop_sublist (store : List Task) (l r : List Task)
    (h : readyTasksLoop store l = some r) : r.Sublist l := by
  induction l generalizing r with
  | nil =>
    simp only [readyTasksLoop, Option.some.injEq] at h
    simp [← h]
  | cons t rest ih =>
    simp only [readyTasksLoop] at h
    cases hc : Task.check_dependencies store t with
    | none => rw [hc] at h; simp at h
    | some b =>
      rw [hc] at h
      cases b with
      | true =>
        cases hr : readyTasksLoop store rest with
        | none => rw [hr] at h; simp at h
        | some r' =>
          rw [hr] at h
          simp only [Option.map_some', Option.some.injEq] at h
          rw [← h]
          exact (ih r' hr).cons₂ t
      | false => exact (ih r h).cons t

/-- C5: whenever `get_pending_tasks` returns a list, every task in it is
pending/queued/retry with an unset or passed schedule time, and the list is
ordered by `(priority rank, created_at)` with ranks urgent=1, high=2,
normal=3, low=4 — so urgent tasks precede lower-priority ones and ties within
a rank are FIFO by creation time.  (A call raises instead of returning when a
selected task references a missing dependency id; see C4.) -/
theorem get_pending_tasks_spec (store : List Task) (qn : Option String)
    (limit : Nat) (now : Int) (l : List Task)
    (hl : Task.get_pending_tasks store qn limit now = some l) :
    (∀ t ∈ l,
        (t.task_status = TaskStatus.pending ∨ t.task_status = TaskStatus.queued ∨
          t.task_status = TaskStatus.retry) ∧
        (∀ s, t.scheduled_at = some s → s ≤ now)) ∧
    l.Pairwise (fun a b =>
        priority_order a.priority < priority_order b.priority ∨
        (priority_order a.priority = priority_order b.priority ∧
          a.created_at ≤ b.created_at)) := by
  simp only [Task.get_pending_tasks] at hl
  have hsub := readyTasksLoop_sublist store _ l hl
  constructor
  · intro t ht
    have hts := hsub.subset ht
    rw [List.mem_mergeSort] at hts
    replace hts := List.take_subset _ _ hts
    rw [List.mem_mergeSort] at hts
    have hsched := (List.mem_filter.mp hts).2
    replace hts := (List.mem_filter.mp hts).1
    have hstat : (t.task_status == TaskStatus.pending ||
        t.task_status == TaskStatus.queued ||
        t.task_status == TaskStatus.retry) = true := by
      cases qn with
      | none => exact (List.mem_filter.mp hts).2
      | some q => exact (List.mem_filter.mp (List.mem_filter.mp hts).1).2
    constructor
    · simp only [Bool.or_eq_true, beq_iff_eq] at hstat
      tauto
    · intro s hs
      rw [hs] at hsched
      simpa using hsched
  · refine List.Pairwise.sublist hsub ?_
    refine List.Pairwise.imp ?_ (List.sorted_mergeSort taskKeyLe_trans taskKeyLe_total _)
    intro a b hab
    exact (taskKeyLe_eq_true_iff a b).mp hab

/-- Witness for C5: on a concrete store the selection returns a list, and the
selection's guarantees apply to its member. -/
theorem get_pending_tasks_spec_witness :
    Task.get_pending_tasks [exGpuTask] (some "q") 100 1000 = some [exGpuTask] ∧
    (exGpuTask.task_status = TaskStatus.pending ∨
      exGpuTask.task_status = TaskStatus.queued ∨
      exGpuTask.task_status = TaskStatus.retry) := by
  have hret : Task.get_pending_tasks [exGpuTask] (some "q") 100 1000 =
      some [exGpuTask] := by
    simp only [Task.get_pending_tasks]
    have hflt : (((([exGpuTask] : List Task).filter fun t =>
        t.task_status == TaskStatus.pending || t.task_status == TaskStatus.queued ||
          t.task_status == TaskStatus.retry).filter fun t =>
        t.queue_name == "q").filter fun (t : Task) =>
        match t.scheduled_at with
        | none => true
        | some s => decide (s ≤ (1000 : Int))) = [exGpuTask] := by decide
    rw [hflt, List.mergeSort_singleton, List.take_of_length_le (by decide),
      List.mergeSort_singleton]
    decide
  refine ⟨hret, ?_⟩
  exact ((get_pending_tasks_spec [exGpuTask] (some "q") 100 1000 [exGpuTask] hret).1
    exGpuTask (by decide)).1

/-- C8 counterexample: the cancel operation does not behave as claimed on
either layer — the model-level `cancel_task` succeeds on a *completed* task
(the claim says any status outside pending/queued/running is rejected), and
the service-level `cancel_task` reports failure on a *running* task (the
claim says running tasks are cancellable), because its guard compares the
`StatusMixin.status` field (here the default string `'active'`) against
`TaskStatus` enum members. -/
theorem cancel_task_cex :
    exCompleted.task_status = TaskStatus.completed ∧
    (exCompleted.cancel_task none 7).task_status = TaskStatus.cancelled ∧
    (exCompleted.cancel_task none 7).completed_at = some 7 ∧
    exRunning.task_status = TaskStatus.running ∧
    (TaskService.cancel_task [exRunning] "t1").1.success = false := by
  decide

/-- C8 (amended): `Task.cancel_task` succeeds unconditionally — from any
status it sets status `cancelled` and `completed_at = now` — while the
service-level `cancel_task` never succeeds: its status guard reads the
auxiliary `StatusMixin.status` field and compares it with enum members, and
the accepted path would call the undefined `Task.cancel` method, so every
path reports failure and leaves the store unchanged. -/
theorem cancel_task_semantics :
    (∀ (t : Task) (reason : Option String) (now : Int),
        (t.cancel_task reason now).task_status = TaskStatus.cancelled ∧
        (t.cancel_task reason now).completed_at = some now) ∧
    (∀ (store : List Task) (tid : String),
        (TaskService.cancel_task store tid).1.success = false ∧
        (TaskService.cancel_task store tid).2 = store) := by
  constructor
  · intro t reason now
    constructor <;> simp [Task.cancel_task]
  · intro store tid
    unfold TaskService.cancel_task
    cases Task.get_by_id store tid with
    | none => simp
    | some task =>
      by_cases hg : (task.status == StatusVal.enum TaskStatus.pending ||
          task.status == StatusVal.enum TaskStatus.running) = true
      · simp [hg]
      · simp only [Bool.not_eq_true] at hg
        cases hts : task.status with
        | enum e =>
          by_cases he : e = TaskStatus.pending ∨ e = TaskStatus.running <;>
            simp [hts, he]
        | str s => simp [hg, hts]

/-- Unfolding of `can_accept_tasks` into its three conditions. -/
theorem can_accept_tasks_eq_true_iff (w : WorkerNode) (store : List Task) (now : Int) :
    w.can_accept_tasks store now = true ↔
      (w.is_online now = true ∧ w.is_busy = false ∧
        w.current_tasks_count store < w.max_concurrent_tasks) := by
  by_cases h1 : w.is_online now <;> by_cases h2 : w.is_busy <;>
    simp [WorkerNode.can_accept_tasks, h1, h2]

/-- C9 counterexample: `get_available_workers` performs no resource check —
it returns a worker with `gpu_available = false` even though the queue's
ready task requires a GPU, so the claimed "resource capacity at least the
task's resource hints" clause does not hold. -/
theorem get_available_workers_no_resource_check_cex :
    exWorker ∈ WorkerNode.get_available_workers [exWorker] [exGpuTask] (some "q") 1000 ∧
    exWorker.gpu_available = false ∧
    exGpuTask.gpu_requirement = true ∧
    exGpuTask.queue_name = "q" ∧
    exGpuTask.task_status = TaskStatus.pending := by
  refine ⟨?_, by decide, by decide, by decide, by decide⟩
  simp only [WorkerNode.get_available_workers]
  rw [List.mem_mergeSort]
  decide

/-- C9 (amended): every worker returned by `get_available_workers` is online
(active with a heartbeat inside the 5-minute window), not busy, runs fewer
tasks than `max_concurrent_tasks`, and serves the requested queue, and the
returned list is sorted ascending by current running-task count; no resource
comparison against any task's hints is performed. -/
theorem get_available_workers_spec (workers : List WorkerNode) (store : List Task)
    (qn : Option String) (now : Int) :
    (∀ w ∈ WorkerNode.get_available_workers workers store qn now,
        w.is_online now = true ∧ w.is_busy = false ∧
        w.current_tasks_count store < w.max_concurrent_tasks ∧
        ∀ q, qn = some q → q ∈ w.queue_names) ∧
    (WorkerNode.get_available_workers workers store qn now).Pairwise (fun a b =>
        a.current_tasks_count store ≤ b.current_tasks_count store) := by
  constructor
  · intro w hw
    simp only [WorkerNode.get_available_workers] at hw
    rw [List.mem_mergeSort] at hw
    have hacc := (List.mem_filter.mp hw).2
    replace hw := (List.mem_filter.mp hw).1
    rw [can_accept_tasks_eq_true_iff] at hacc
    refine ⟨hacc.1, hacc.2.1, hacc.2.2, ?_⟩
    intro q hq
    subst hq
    have := (List.mem_filter.mp hw).2
    simpa [List.contains, List.elem_iff] using this
  · simp only [WorkerNode.get_available_workers]
    refine List.Pairwise.imp ?_ (List.sorted_mergeSort ?_ ?_ _)
    · intro a b hab
      simpa using hab
    · intro a b c h1 h2
      simp only [decide_eq_true_eq] at h1 h2 ⊢
      exact h1.trans h2
    · intro a b
      simp only [Bool.or_eq_true, decide_eq_true_eq]
      omega

/-- Witness for the amended C9 theorem at a concrete eligible worker. -/
theorem get_available_workers_spec_witness :
    exWorker.is_online 1000 = true ∧ exWorker.is_busy = false ∧
    exWorker.current_tasks_count [exGpuTask] < exWorker.max_concurrent_tasks ∧
    "q" ∈ exWorker.queue_names := by
  have hmem : exWorker ∈
      WorkerNode.get_available_workers [exWorker] [exGpuTask] (some "q") 1000 := by
    simp only [WorkerNode.get_available_workers]
    rw [List.mem_mergeSort]
    decide
  have h := (get_available_workers_spec [exWorker] [exGpuTask] (some "q") 1000).1
    exWorker hmem
  exact ⟨h.1, h.2.1, h.2.2.1, h.2.2.2 "q" rfl⟩

end TaskSched
